import Mathlib

/-!
Shallow embedding of the order-placement / stock-deduction core of the
store-management backend (Express + Mongoose), together with proofs about
its behaviour.

Conventions of the embedding:
* Mongo ObjectIds are modelled as `Nat`.
* JS numbers holding quantities, prices and amounts are modelled as `Int`
  (every relevant value in the source is integral; `NaN` does not arise for
  `Int` and is noted where the source checks `isNaN`).
* The soft-delete marker `deletedAt` is a `Nat`; `0` means active, any other
  value is a deletion timestamp, exactly as in the source.
* A Mongoose `findById` is a lookup by id alone (no delete-marker filter);
  a `findOne {_id, deletedAt: 0}` lookup additionally requires the marker
  to be `0`.  Both are `List.find?` with the corresponding predicate.
* The Mongoose session/transaction of `POST /add-order` is modelled by
  threading a working copy of the stock list through the per-item loop;
  `commitTransaction` installs the working copy into the database state,
  `abortTransaction` returns the original state unchanged.
* `sendLowStockAlert` (fire-and-forget e-mail) is modelled by appending a
  `Notif` record to an output list at the exact program point where the
  source calls it.  E-mails are not transactional: the output list survives
  an aborted transaction.
-/

/-- A registered user (`model/User.js`); only the e-mail is relevant here. -/
structure User where
  name : String
  email : String
deriving DecidableEq

/-- A customer (`model/Customer.js`): contact fields irrelevant to the claims
are elided; the unique-among-active key is `email`. -/
structure Customer where
  id : Nat
  email : String
  deletedAt : Nat
deriving DecidableEq

/-- A category (`model/Category.js`). -/
structure Category where
  id : Nat
  name : String
  description : String
  deletedAt : Nat
deriving DecidableEq

/-- A product (`model/Product.js`).  Image URLs are elided (file upload is an
external collaborator per the spec scope). -/
structure Product where
  id : Nat
  name : String
  productCode : String
  description : String
  size : String
  color : String
  category : Nat
  price : Int
  deletedAt : Nat
deriving DecidableEq

/-- A stock batch (`model/Stock.js`). -/
structure Stock where
  id : Nat
  product : Nat
  batchNumber : String
  quantity : Int
  size : String
  price : Int
  supplier : String
  lowStockAlert : Int
  lastRestocked : Nat
  deletedAt : Nat
deriving DecidableEq

/-- One line item of an order: `{ stock: <id>, quantity }`. -/
structure OrderItem where
  stock : Nat
  quantity : Int
deriving DecidableEq

/-- An order document (`model/Order.js`). -/
structure Order where
  customer : Nat
  items : List OrderItem
  totalAmount : Int
  status : String
  deletedAt : Nat
deriving DecidableEq

/-- The whole database state. -/
structure DB where
  customers : List Customer
  products : List Product
  stocks : List Stock
  orders : List Order
  users : List User
  categories : List Category
deriving DecidableEq

/-- A call to `sendLowStockAlert(productName, batchNumber, quantity, emails)`
(`utils/email.js`). -/
structure Notif where
  productName : String
  batchNumber : String
  quantity : Int
  recipients : List String
deriving DecidableEq

/-! ## placeOrder (`src/api/Order.js`, `router.post('/add-order')`) -/

/-- The distinct failure responses of `POST /add-order`. -/
inductive OrderError where
  /-- "All fields are required" -/
  | missingFields
  /-- "Customer not found" -/
  | customerNotFound
  /-- "Stock not found: \x7bitem.stock\x7d" -/
  | stockNotFound (stockId : Nat)
  /-- "Insufficient stock for \x7bstock.product.name\x7d. Available: \x7bstock.quantity\x7d" -/
  | insufficientStock (productName : String) (available : Int)
  /-- the catch-all branch: "Order creation failed due to server error." -/
  | serverError
deriving DecidableEq

/-- Outcome of `POST /add-order`. -/
inductive OrderOutcome where
  | success (order : Order)
  | failed (e : OrderError)
deriving DecidableEq

/-- The request body of `POST /add-order`; `none` models a missing
(`undefined`) field. -/
structure OrderReq where
  customerId : Option Nat
  items : Option (List OrderItem)
  totalAmount : Option Int
deriving DecidableEq

/-- The low-stock test on the order path (`Order.js` line 56):
strict `stock.quantity < stock.lowStockAlert` after the deduction. -/
def orderLowStockCond (quantity lowStockAlert : Int) : Bool :=
  quantity < lowStockAlert

/-- The per-item validate/deduct/alert loop of `POST /add-order`
(`Order.js` lines 34-65), threading the session's working stock list and
accumulating the `sendLowStockAlert` calls made so far.  The alert calls are
returned even when the loop fails, because the e-mails have already been
sent when the transaction aborts. -/
def processItems (products : List Product) (emails : List String) :
    List OrderItem → List Stock → List Notif →
    Except OrderError (List Stock) × List Notif
  | [], stocks, notifs => (Except.ok stocks, notifs)
  | item :: rest, stocks, notifs =>
    match stocks.find? (fun s => s.id == item.stock) with
    | none => (Except.error (OrderError.stockNotFound item.stock), notifs)
    | some stock =>
      if stock.quantity < item.quantity then
        -- the error message dereferences the populated `stock.product.name`;
        -- if the referenced product document is missing this throws and the
        -- catch branch answers with the generic server error
        match products.find? (fun p => p.id == stock.product) with
        | some p =>
          (Except.error (OrderError.insufficientStock p.name stock.quantity), notifs)
        | none => (Except.error OrderError.serverError, notifs)
      else
        let stock' := { stock with quantity := stock.quantity - item.quantity }
        let stocks' := stocks.map (fun s => if s.id == item.stock then stock' else s)
        let notifs' :=
          if orderLowStockCond stock'.quantity stock'.lowStockAlert then
            match products.find? (fun p => p.id == stock.product) with
            | some p => notifs ++ [⟨p.name, stock'.batchNumber, stock'.quantity, emails⟩]
            | none => notifs
          else notifs
        processItems products emails rest stocks' notifs'

/-- The `totalAmount` fallback sum (`Order.js` lines 70-78): re-fetch each
line's stock from the session, follow its product, and add
`price * quantity` when the stock, the product and a truthy price exist. -/
def computeFallbackTotal (products : List Product) (stocks : List Stock)
    (items : List OrderItem) : Int :=
  items.foldl (fun acc item =>
    match stocks.find? (fun s => s.id == item.stock) with
    | some stock =>
      match products.find? (fun p => p.id == stock.product) with
      | some p => if p.price == 0 then acc else acc + p.price * item.quantity
      | none => acc
    | none => acc) 0

/-- `POST /add-order` (`src/api/Order.js` lines 13-101).  Returns the
response, the database state after the request, and the list of
`sendLowStockAlert` calls that were made. -/
def placeOrder (req : OrderReq) (db : DB) : OrderOutcome × DB × List Notif :=
  match req.customerId, req.items, req.totalAmount with
  | some cid, some items, some tA =>
    if items.isEmpty then (.failed .missingFields, db, [])
    else
      -- `Customer.findById(customerId)` — no delete-marker filter
      match db.customers.find? (fun c => c.id == cid) with
      | none => (.failed .customerNotFound, db, [])
      | some _ =>
        let emails := db.users.map (·.email)
        match processItems db.products emails items db.stocks [] with
        | (.error e, notifs) => (.failed e, db, notifs)
        | (.ok stocks', notifs) =>
          -- `!finalTotalAmount || isNaN(finalTotalAmount)`: for an `Int`
          -- the falsy value is `0` (`NaN` cannot arise in the model)
          let finalTotal := if tA == 0 then computeFallbackTotal db.products stocks' items else tA
          let newOrder : Order :=
            { customer := cid, items := items, totalAmount := finalTotal,
              status := "pending", deletedAt := 0 }
          (.success newOrder,
           { db with stocks := stocks', orders := db.orders ++ [newOrder] },
           notifs)
  | _, _, _ => (.failed .missingFields, db, [])

/-! ## Stock routes (`src/routes/.../Stock.js`) -/

/-- The low-stock test on the manual-update path (`update-stock`, line 117):
`stock.quantity <= stock.lowStockAlert` after the update. -/
def updateLowStockCond (quantity lowStockAlert : Int) : Bool :=
  quantity ≤ lowStockAlert

/-- Body of `PUT /update-stock/:id`; each field is optional and only
overwrites the stored value when present (`!== undefined`). -/
structure UpdateStockReq where
  quantity : Option Int
  price : Option Int
  size : Option String
  lowStockAlert : Option Int
  supplier : Option String
deriving DecidableEq

/-- Outcome of `PUT /update-stock/:id`. -/
inductive UpdateStockOutcome where
  | success (s : Stock)
  /-- "Stock not found" -/
  | notFound
  /-- "Invalid product ID" (answered after the stock was already saved) -/
  | invalidProduct
deriving DecidableEq

/-- `PUT /update-stock/:id` (Stock routes lines 96-138).  `now` stands for
`Date.now()`.  Returns the response, the new database state and the
`sendLowStockAlert` calls made. -/
def updateStock (id : Nat) (req : UpdateStockReq) (now : Nat) (db : DB) :
    UpdateStockOutcome × DB × List Notif :=
  match db.stocks.find? (fun s => s.id == id && s.deletedAt == 0) with
  | none => (.notFound, db, [])
  | some stock =>
    let stock :=
      { stock with
        quantity := req.quantity.getD stock.quantity
        price := req.price.getD stock.price
        size := req.size.getD stock.size
        lowStockAlert := req.lowStockAlert.getD stock.lowStockAlert
        supplier := req.supplier.getD stock.supplier
        lastRestocked := now }
    let db' := { db with stocks := db.stocks.map (fun s => if s.id == id then stock else s) }
    if updateLowStockCond stock.quantity stock.lowStockAlert then
      match db.products.find? (fun p => p.id == stock.product) with
      | none => (.invalidProduct, db', [])
      | some p =>
        (.success stock, db', [⟨p.name, stock.batchNumber, stock.quantity, db.users.map (·.email)⟩])
    else (.success stock, db', [])

/-- Body of `POST /add-stock`.  A `none` models a missing field; the source
also treats an empty string as missing (JS truthiness of `!size` and
`!supplier`). -/
structure AddStockReq where
  product : Option Nat
  quantity : Option Int
  size : Option String
  price : Option Int
  supplier : Option String
deriving DecidableEq

/-- Outcome of `POST /add-stock`. -/
inductive AddStockOutcome where
  | success (s : Stock)
  /-- "All required fields must be provided" -/
  | missingFields
  /-- "Quantity and Price cannot be negative" -/
  | negativeInput
  /-- "Invalid product ID" -/
  | invalidProduct
deriving DecidableEq

/-- `POST /add-stock` (Stock routes lines 10-54).  `newId` stands for the
ObjectId Mongo assigns; `formattedDate` stands for the `DDMMYY` string built
from `new Date()`; `now` stands for `Date.now()`. -/
def addStock (req : AddStockReq) (newId : Nat) (formattedDate : String) (now : Nat)
    (db : DB) : AddStockOutcome × DB :=
  match req.product, req.quantity, req.size, req.price, req.supplier with
  | some product, some quantity, some size, some price, some supplier =>
    if size.isEmpty || supplier.isEmpty then (.missingFields, db)
    else if quantity < 0 || price < 0 then (.negativeInput, db)
    else
      -- `Product.findById(product)` — no delete-marker filter
      match db.products.find? (fun p => p.id == product) with
      | none => (.invalidProduct, db)
      | some productData =>
        let newStock : Stock :=
          { id := newId, product := product
            batchNumber := "BATCH_" ++ productData.productCode ++ "_" ++ formattedDate
            quantity := quantity, size := size, price := price, supplier := supplier
            lowStockAlert := 5, lastRestocked := now, deletedAt := 0 }
        (.success newStock, { db with stocks := db.stocks ++ [newStock] })
  | _, _, _, _, _ => (.missingFields, db)

/-! ## Restore routes (soft-delete lifecycle) -/

/-- Outcome of the three restore routes. -/
inductive RestoreOutcome where
  | ok
  /-- entity absent or not in the deleted state -/
  | notFound
  /-- "Cannot restore ... now conflicts with an active ..." -/
  | conflict
deriving DecidableEq

/-- `POST /restore-product/:id` (`src/api/Product.js` lines 257-295):
find a deleted product, refuse when its `productCode` is now carried by an
active product, otherwise clear the marker. -/
def restoreProduct (id : Nat) (db : DB) : RestoreOutcome × DB :=
  match db.products.find? (fun p => p.id == id && p.deletedAt != 0) with
  | none => (.notFound, db)
  | some p =>
    match db.products.find?
        (fun q => q.productCode == p.productCode && q.id != id && q.deletedAt == 0) with
    | some _ => (.conflict, db)
    | none =>
      (.ok, { db with products :=
        db.products.map (fun q => if q.id == id then { p with deletedAt := 0 } else q) })

/-- `POST /restore-category/:id` (Category routes lines 197-240): same
shape as the product restore, keyed on the category name. -/
def restoreCategory (id : Nat) (db : DB) : RestoreOutcome × DB :=
  match db.categories.find? (fun c => c.id == id && c.deletedAt != 0) with
  | none => (.notFound, db)
  | some c =>
    match db.categories.find?
        (fun q => q.name == c.name && q.id != id && q.deletedAt == 0) with
    | some _ => (.conflict, db)
    | none =>
      (.ok, { db with categories :=
        db.categories.map (fun q => if q.id == id then { c with deletedAt := 0 } else q) })

/-- `POST /restore-customer/:id` (Customer routes lines 511-535 of the
concatenated file): finds a deleted customer and clears the marker.  The
source performs NO e-mail conflict check on this route. -/
def restoreCustomer (id : Nat) (db : DB) : RestoreOutcome × DB :=
  match db.customers.find? (fun c => c.id == id && c.deletedAt != 0) with
  | none => (.notFound, db)
  | some c =>
    (.ok, { db with customers :=
      db.customers.map (fun q => if q.id == id then { c with deletedAt := 0 } else q) })

/-! ## Product code generation and product routes (`src/api/Product.js`) -/

/-- `categoryData.name.replace(/[^a-zA-Z]/g, '')`: keep only ASCII letters
(`Char.isAlpha` is exactly `[a-zA-Z]`). -/
def stripNonLetters (s : String) : String :=
  ⟨s.data.filter Char.isAlpha⟩

/-- `.substring(0, 3)`: the first `n` characters. -/
def jsSubstringTo (s : String) (n : Nat) : String :=
  ⟨s.data.take n⟩

/-- `.toUpperCase()` on the ASCII letters produced above. -/
def jsToUpper (s : String) : String :=
  ⟨s.data.map Char.toUpper⟩

/-- `rawPrefix` of the code generator (`Product.js` line 58): category name
with non-letters stripped, truncated to 3 characters, upper-cased. -/
def codeStem (categoryName : String) : String :=
  jsToUpper (jsSubstringTo (stripNonLetters categoryName) 3)

/-- Does `code` match `new RegExp('^' + stem + '\\d\x7b3\x7d$')`, i.e. the
stem followed by exactly three digits?  (The stem contains only upper-case
letters, so it has no regex metacharacters.) -/
def hasCodeShape (stem code : String) : Bool :=
  code.data.take stem.data.length == stem.data
    && (code.data.drop stem.data.length).length == 3
    && (code.data.drop stem.data.length).all Char.isDigit

/-- `product.productCode.match(/\d\x7b3\x7d$/)` followed by `parseInt`:
the numeric value of the last three characters when they are all digits,
otherwise the `: 0` fallback. -/
def codeSuffixNum (code : String) : Nat :=
  let tail := code.data.drop (code.length - 3)
  if tail.length == 3 && tail.all Char.isDigit then
    tail.foldl (fun acc c => acc * 10 + (c.toNat - 48)) 0
  else 0

/-- `maxNumber` (`Product.js` lines 61-67): the largest 3-digit suffix among
ACTIVE products whose code matches the stem pattern, `0` when there are
none. -/
def maxActiveSuffix (stem : String) (products : List Product) : Nat :=
  (products.filter (fun p => p.deletedAt == 0 && hasCodeShape stem p.productCode)).foldl
    (fun m p => max m (codeSuffixNum p.productCode)) 0

/-- `(maxNumber + 1).toString().padStart(3, '0')`: decimal digits, padded on
the left with zeros to at least three characters (longer numbers are kept
whole — `padStart` never truncates). -/
def padTo3 (n : Nat) : String :=
  ⟨List.replicate (3 - (toString n).length) '0' ++ (toString n).data⟩

/-- `newCode` (`Product.js` line 69): the full generated product code for a
category name against the current product list. -/
def genProductCode (categoryName : String) (products : List Product) : String :=
  let stem := codeStem categoryName
  ⟨stem.data ++ (padTo3 (maxActiveSuffix stem products + 1)).data⟩

/-- Body of `POST /add-product` (images are handled by the upload
collaborator and elided). -/
structure AddProductReq where
  name : Option String
  description : Option String
  category : Option Nat
deriving DecidableEq

/-- Outcome of `POST /add-product`. -/
inductive AddProductOutcome where
  | success (p : Product)
  /-- "Name, description, and category are required" -/
  | missingFields
  /-- "Category not found" -/
  | categoryNotFound
deriving DecidableEq

/-- `POST /add-product` (`src/api/Product.js` lines 35-92): validate the
fields, load the ACTIVE category, generate the code, insert the product.
`newId` stands for the ObjectId Mongo assigns; `size`, `color` and `price`
are left to their schema defaults. -/
def addProduct (req : AddProductReq) (newId : Nat) (db : DB) :
    AddProductOutcome × DB :=
  match req.name, req.description, req.category with
  | some name, some description, some category =>
    if name.isEmpty || description.isEmpty then (.missingFields, db)
    else
      match db.categories.find? (fun c => c.id == category && c.deletedAt == 0) with
      | none => (.categoryNotFound, db)
      | some categoryData =>
        let newCode := genProductCode categoryData.name db.products
        let newP : Product :=
          { id := newId, name := name, productCode := newCode,
            description := description, size := "", color := "",
            category := category, price := 0, deletedAt := 0 }
        (.success newP, { db with products := db.products ++ [newP] })
  | _, _, _ => (.missingFields, db)

/-- `DELETE /delete-product/:id` (`Product.js` lines 230-254): soft delete
an active product by stamping `deletedAt` with `Date.now()` (`now ≠ 0`).
Returns whether a product was deleted. -/
def deleteProduct (id : Nat) (now : Nat) (db : DB) : Bool × DB :=
  match db.products.find? (fun p => p.id == id && p.deletedAt == 0) with
  | none => (false, db)
  | some p =>
    (true, { db with products :=
      db.products.map (fun q => if q.id == id then { p with deletedAt := now } else q) })

/-- Body of `PUT /update-product/:id`.  `price` is the result of
`parseFloat(price)`: `none` models a missing or non-numeric value (`NaN`). -/
structure UpdateProductReq where
  name : Option String
  productCode : Option String
  description : Option String
  size : Option String
  color : Option String
  price : Option Int
  category : Option Nat
deriving DecidableEq

/-- Outcome of `PUT /update-product/:id`. -/
inductive UpdateProductOutcome where
  | success (p : Product)
  /-- "All fields are required and price must be a number" /
      "Price must be a positive number" -/
  | invalidInput
  /-- "Product not found or has been deleted" -/
  | notFound
  /-- "Product code already exists on another product" -/
  | codeConflict
deriving DecidableEq

/-- `PUT /update-product/:id` (`src/api/Product.js` lines 154-227): validate
the fields, load the ACTIVE product, check the caller-supplied
`productCode` for uniqueness among other active products when it changed,
then overwrite every field with the supplied values. -/
def updateProduct (id : Nat) (req : UpdateProductReq) (db : DB) :
    UpdateProductOutcome × DB :=
  match req.name, req.productCode, req.description, req.size, req.color,
        req.price, req.category with
  | some name, some productCode, some description, some size, some color,
    some price, some category =>
    if name.isEmpty || productCode.isEmpty || description.isEmpty
        || size.isEmpty || color.isEmpty then (.invalidInput, db)
    else if price ≤ 0 then (.invalidInput, db)
    else
      match db.products.find? (fun p => p.id == id && p.deletedAt == 0) with
      | none => (.notFound, db)
      | some p =>
        let conflict :=
          if productCode != p.productCode then
            (db.products.find?
              (fun q => q.productCode == productCode && q.id != id && q.deletedAt == 0)).isSome
          else false
        if conflict then (.codeConflict, db)
        else
          let p' :=
            { p with
              name := name,
              productCode := productCode,
              description := description,
              size := size,
              color := color,
              price := price,
              category := category }
          (.success p',
           { db with products := db.products.map (fun q => if q.id == id then p' else q) })
  | _, _, _, _, _, _, _ => (.invalidInput, db)

/-- The format `^[A-Z]\x7b1,3\x7d\d\x7b3\x7d$` claimed as the `productCode`
invariant: a maximal block of one to three upper-case letters followed by
exactly three digits. -/
def isCodeFormat (s : String) : Bool :=
  let letters := s.data.takeWhile Char.isUpper
  let rest := s.data.drop letters.length
  (1 ≤ letters.length && letters.length ≤ 3)
    && rest.length == 3 && rest.all Char.isDigit

/-! ## Helper lemmas -/

/-- An ASCII character below code point 123 that is a letter upper-cases to
an upper-case letter (checked exhaustively). -/
theorem char_bound_aux : ∀ n : Nat, n < 123 →
    ((Char.ofNat n).isAlpha = true → ((Char.ofNat n).toUpper).isUpper = true) := by decide

/-- An ASCII character below code point 58 that is a digit is not an
upper-case letter (checked exhaustively). -/
theorem digit_bound_aux : ∀ n : Nat, n < 58 →
    ((Char.ofNat n).isDigit = true → (Char.ofNat n).isUpper = false) := by decide

/-- A letter has code point below 123. -/
theorem toNat_lt_of_isAlpha {c : Char} (h : c.isAlpha = true) : c.toNat < 123 := by
  simp only [Char.isAlpha, Char.isUpper, Char.isLower, Bool.or_eq_true, Bool.and_eq_true,
    decide_eq_true_eq] at h
  simp only [Char.toNat]
  rcases h with ⟨_, h2⟩ | ⟨_, h2⟩
  · have := UInt32.toNat_le_of_le (m := 90) (by decide) h2
    omega
  · have := UInt32.toNat_le_of_le (m := 122) (by decide) h2
    omega

/-- Upper-casing a letter yields an upper-case letter. -/
theorem isUpper_toUpper_of_isAlpha {c : Char} (h : c.isAlpha = true) :
    (Char.toUpper c).isUpper = true := by
  have hb := toNat_lt_of_isAlpha h
  have h2 := char_bound_aux c.toNat hb
  rw [Char.ofNat_toNat] at h2
  exact h2 h

/-- A digit has code point below 58. -/
theorem toNat_lt_of_isDigit {c : Char} (h : c.isDigit = true) : c.toNat < 58 := by
  simp only [Char.isDigit, Bool.and_eq_true, decide_eq_true_eq] at h
  simp only [Char.toNat]
  have := UInt32.toNat_le_of_le (m := 57) (by decide) h.2
  omega

/-- A digit is not an upper-case letter. -/
theorem isUpper_eq_false_of_isDigit {c : Char} (h : c.isDigit = true) :
    c.isUpper = false := by
  have hb := toNat_lt_of_isDigit h
  have h2 := digit_bound_aux c.toNat hb
  rw [Char.ofNat_toNat] at h2
  exact h2 h

set_option maxRecDepth 40000 in
/-- For every sequence number below 1000, `padStart(3, '0')` of its decimal
representation is exactly three digit characters (checked exhaustively). -/
theorem padTo3_spec : ∀ k : Nat, k < 1000 →
    ((padTo3 k).data.length = 3 ∧ (padTo3 k).data.all Char.isDigit = true) := by
  decide

/-- The generated product code matches `^[A-Z]\x7b1,3\x7d\d\x7b3\x7d$`
whenever the category name contains at least one ASCII letter and the
largest active sequence number is at most 998. -/
theorem genCode_format (name : String) (ps : List Product)
    (h1 : stripNonLetters name ≠ "")
    (h2 : maxActiveSuffix (codeStem name) ps ≤ 998) :
    isCodeFormat (genProductCode name ps) = true := by
  have hk1000 : maxActiveSuffix (codeStem name) ps + 1 < 1000 := by omega
  have hpad := padTo3_spec _ hk1000
  set L := ((name.data.filter Char.isAlpha).take 3).map Char.toUpper with hL
  set D := (padTo3 (maxActiveSuffix (codeStem name) ps + 1)).data with hD
  have hfilter_ne : (name.data.filter Char.isAlpha) ≠ [] := by
    intro hnil
    apply h1
    show (⟨name.data.filter Char.isAlpha⟩ : String) = ""
    rw [hnil]
  have hL1 : 1 ≤ L.length := by
    rw [hL]
    simp only [List.length_map, List.length_take]
    have := List.length_pos.mpr hfilter_ne
    omega
  have hL3 : L.length ≤ 3 := by
    rw [hL]
    simp only [List.length_map, List.length_take]
    omega
  have hLup : ∀ c ∈ L, Char.isUpper c = true := by
    intro c hc
    rw [hL] at hc
    rcases List.mem_map.mp hc with ⟨c', hc', rfl⟩
    exact isUpper_toUpper_of_isAlpha (List.of_mem_filter (List.mem_of_mem_take hc'))
  have hdata : (genProductCode name ps).data = L ++ D := rfl
  have htakeD : D.takeWhile Char.isUpper = [] := by
    cases hDc : D with
    | nil => rfl
    | cons d ds =>
      have hall := hpad.2
      rw [hDc] at hall
      simp only [List.all_cons, Bool.and_eq_true] at hall
      simp [List.takeWhile_cons, isUpper_eq_false_of_isDigit hall.1]
  have htake : (L ++ D).takeWhile Char.isUpper = L := by
    rw [List.takeWhile_append_of_pos hLup, htakeD, List.append_nil]
  simp only [isCodeFormat, hdata, htake, List.drop_left]
  have hDlen : D.length = 3 := hpad.1
  have hDdig : D.all Char.isDigit = true := hpad.2
  simp [hL1, hL3, hDlen, hDdig]

/-! ## Claims -/

/-- Claim C1: `placeOrder` is all-or-nothing.  Whenever `POST /add-order`
answers with a failure, the database state it leaves behind is exactly the
state before the call (all deductions rolled back, no order persisted); in
particular, in the two-line-item run where the first deduction succeeds and
the second line has insufficient stock, the call fails with the
insufficient-stock error and the first batch's quantity is unchanged. -/
theorem placeOrder_all_or_nothing :
    (∀ (req : OrderReq) (db : DB) (e : OrderError) (db' : DB) (ns : List Notif),
       placeOrder req db = (.failed e, db', ns) → db' = db)
    ∧ ((placeOrder ⟨some 7, some [⟨1, 3⟩, ⟨2, 4⟩], some 100⟩
          ⟨[⟨7, "c@x.com", 0⟩],
           [⟨10, "Gadget", "GAD001", "d", "", "", 1, 100, 0⟩,
            ⟨20, "Widget", "WID001", "d", "", "", 1, 100, 0⟩],
           [⟨1, 10, "B1", 5, "M", 100, "S", 5, 0, 0⟩,
            ⟨2, 20, "B2", 1, "M", 100, "S", 5, 0, 0⟩],
           [], [⟨"U", "u@x.com"⟩], []⟩).1
         = .failed (.insufficientStock "Widget" 1)
       ∧ (placeOrder ⟨some 7, some [⟨1, 3⟩, ⟨2, 4⟩], some 100⟩
          ⟨[⟨7, "c@x.com", 0⟩],
           [⟨10, "Gadget", "GAD001", "d", "", "", 1, 100, 0⟩,
            ⟨20, "Widget", "WID001", "d", "", "", 1, 100, 0⟩],
           [⟨1, 10, "B1", 5, "M", 100, "S", 5, 0, 0⟩,
            ⟨2, 20, "B2", 1, "M", 100, "S", 5, 0, 0⟩],
           [], [⟨"U", "u@x.com"⟩], []⟩).2.1.stocks.map Stock.quantity
         = [5, 1]) := by
  constructor
  · intro req db e db' ns h
    obtain ⟨cid, its, tA⟩ := req
    rcases cid with _ | cid <;> rcases its with _ | its <;> rcases tA with _ | tA <;>
      simp only [placeOrder] at h
    all_goals try (simp only [Prod.mk.injEq] at h; exact h.2.1.symm)
    split at h
    · simp only [Prod.mk.injEq] at h; exact h.2.1.symm
    · rcases hf : List.find? (fun c => c.id == cid) db.customers with _ | c
      case _ => rw [hf] at h; simp only [Prod.mk.injEq] at h; exact h.2.1.symm
      case _ =>
        rw [hf] at h
        rcases hp : processItems db.products (List.map (fun x => x.email) db.users)
            its db.stocks [] with ⟨exr, notifs⟩
        rw [hp] at h
        cases exr with
        | error e2 => simp only [Prod.mk.injEq] at h; exact h.2.1.symm
        | ok stocks2 =>
          simp only [Prod.mk.injEq] at h
          exact absurd h.1 (by intro hh; cases hh)
  · constructor
    · decide
    · decide

/-- Witness for C1: the hypothesis of the universally quantified part is
satisfiable — the concrete two-item insufficient-stock run does fail, and
the theorem then yields that the state is unchanged. -/
theorem placeOrder_all_or_nothing_witness :
    placeOrder ⟨some 7, some [⟨1, 3⟩, ⟨2, 4⟩], some 100⟩
        ⟨[⟨7, "c@x.com", 0⟩],
         [⟨10, "Gadget", "GAD001", "d", "", "", 1, 100, 0⟩,
          ⟨20, "Widget", "WID001", "d", "", "", 1, 100, 0⟩],
         [⟨1, 10, "B1", 5, "M", 100, "S", 5, 0, 0⟩,
          ⟨2, 20, "B2", 1, "M", 100, "S", 5, 0, 0⟩],
         [], [⟨"U", "u@x.com"⟩], []⟩
      = (.failed (.insufficientStock "Widget" 1),
         ⟨[⟨7, "c@x.com", 0⟩],
          [⟨10, "Gadget", "GAD001", "d", "", "", 1, 100, 0⟩,
           ⟨20, "Widget", "WID001", "d", "", "", 1, 100, 0⟩],
          [⟨1, 10, "B1", 5, "M", 100, "S", 5, 0, 0⟩,
           ⟨2, 20, "B2", 1, "M", 100, "S", 5, 0, 0⟩],
          [], [⟨"U", "u@x.com"⟩], []⟩,
         [⟨"Gadget", "B1", 2, ["u@x.com"]⟩])
    ∧ (⟨[⟨7, "c@x.com", 0⟩],
        [⟨10, "Gadget", "GAD001", "d", "", "", 1, 100, 0⟩,
         ⟨20, "Widget", "WID001", "d", "", "", 1, 100, 0⟩],
        [⟨1, 10, "B1", 5, "M", 100, "S", 5, 0, 0⟩,
         ⟨2, 20, "B2", 1, "M", 100, "S", 5, 0, 0⟩],
        [], [⟨"U", "u@x.com"⟩], []⟩ : DB)
      = ⟨[⟨7, "c@x.com", 0⟩],
         [⟨10, "Gadget", "GAD001", "d", "", "", 1, 100, 0⟩,
          ⟨20, "Widget", "WID001", "d", "", "", 1, 100, 0⟩],
         [⟨1, 10, "B1", 5, "M", 100, "S", 5, 0, 0⟩,
          ⟨2, 20, "B2", 1, "M", 100, "S", 5, 0, 0⟩],
         [], [⟨"U", "u@x.com"⟩], []⟩ :=
  ⟨by decide,
   placeOrder_all_or_nothing.1 ⟨some 7, some [⟨1, 3⟩, ⟨2, 4⟩], some 100⟩
     ⟨[⟨7, "c@x.com", 0⟩],
      [⟨10, "Gadget", "GAD001", "d", "", "", 1, 100, 0⟩,
       ⟨20, "Widget", "WID001", "d", "", "", 1, 100, 0⟩],
      [⟨1, 10, "B1", 5, "M", 100, "S", 5, 0, 0⟩,
       ⟨2, 20, "B2", 1, "M", 100, "S", 5, 0, 0⟩],
      [], [⟨"U", "u@x.com"⟩], []⟩
     (.insufficientStock "Widget" 1)
     ⟨[⟨7, "c@x.com", 0⟩],
      [⟨10, "Gadget", "GAD001", "d", "", "", 1, 100, 0⟩,
       ⟨20, "Widget", "WID001", "d", "", "", 1, 100, 0⟩],
      [⟨1, 10, "B1", 5, "M", 100, "S", 5, 0, 0⟩,
       ⟨2, 20, "B2", 1, "M", 100, "S", 5, 0, 0⟩],
      [], [⟨"U", "u@x.com"⟩], []⟩
     [⟨"Gadget", "B1", 2, ["u@x.com"]⟩] (by decide)⟩

/-- Claim C2 (code bug): `PUT /update-stock/:id` applies a caller-supplied
quantity without any sign check — updating an active batch of quantity 7
with body `\x7b quantity: -5 \x7d` succeeds and stores the negative
quantity `-5`, violating the non-negativity invariant that `POST /add-stock`
itself enforces ("Quantity and Price cannot be negative"). -/
theorem updateStock_stores_negative_quantity :
    updateStock 1 ⟨some (-5), none, none, none, none⟩ 99
        ⟨[], [⟨10, "Gadget", "GAD001", "d", "", "", 1, 100, 0⟩],
         [⟨1, 10, "B1", 7, "M", 100, "S", 5, 0, 0⟩], [], [⟨"U", "u@x.com"⟩], []⟩
      = (.success ⟨1, 10, "B1", -5, "M", 100, "S", 5, 99, 0⟩,
         ⟨[], [⟨10, "Gadget", "GAD001", "d", "", "", 1, 100, 0⟩],
          [⟨1, 10, "B1", -5, "M", 100, "S", 5, 99, 0⟩], [], [⟨"U", "u@x.com"⟩], []⟩,
         [⟨"Gadget", "B1", -5, ["u@x.com"]⟩])
    ∧ (-5 : Int) < 0
    ∧ (addStock ⟨some 10, some (-1), some "M", some 100, some "S"⟩ 2 "101025" 99
        ⟨[], [⟨10, "Gadget", "GAD001", "d", "", "", 1, 100, 0⟩], [], [], [], []⟩).1
      = .negativeInput := by
  refine ⟨by decide, by decide, by decide⟩

/-- Counterexample to claim C3: a two-line-item order whose first deduction
crosses the low-stock threshold and whose second line has insufficient
stock is aborted (the state is rolled back to the original), yet ONE
low-stock notification has already been dispatched for the rolled-back
deduction — a failed `placeOrder` does not dispatch zero notifications. -/
theorem placeOrder_aborted_alert_cex :
    (placeOrder ⟨some 7, some [⟨1, 3⟩, ⟨2, 4⟩], some 100⟩
        ⟨[⟨7, "c@x.com", 0⟩],
         [⟨10, "Lamp", "LAM001", "d", "", "", 1, 100, 0⟩,
          ⟨20, "Desk", "DES001", "d", "", "", 1, 100, 0⟩],
         [⟨1, 10, "B1", 5, "M", 100, "S", 5, 0, 0⟩,
          ⟨2, 20, "B2", 1, "M", 100, "S", 5, 0, 0⟩],
         [], [⟨"U", "u@x.com"⟩], []⟩).1
      = .failed (.insufficientStock "Desk" 1)
    ∧ (placeOrder ⟨some 7, some [⟨1, 3⟩, ⟨2, 4⟩], some 100⟩
        ⟨[⟨7, "c@x.com", 0⟩],
         [⟨10, "Lamp", "LAM001", "d", "", "", 1, 100, 0⟩,
          ⟨20, "Desk", "DES001", "d", "", "", 1, 100, 0⟩],
         [⟨1, 10, "B1", 5, "M", 100, "S", 5, 0, 0⟩,
          ⟨2, 20, "B2", 1, "M", 100, "S", 5, 0, 0⟩],
         [], [⟨"U", "u@x.com"⟩], []⟩).2.2.length = 1 := by
  refine ⟨by decide, by decide⟩

/-- Claim C3 as amended: low-stock notifications are dispatched immediately
inside the transaction loop, at deduction time, NOT queued until after
commit — so an aborted `placeOrder` can already have dispatched an alert
for a deduction that is rolled back.  In the concrete aborted run the state
is returned unchanged while the alert for the first (rolled-back) deduction
has been sent. -/
theorem placeOrder_alert_before_commit :
    placeOrder ⟨some 7, some [⟨1, 3⟩, ⟨2, 4⟩], some 100⟩
        ⟨[⟨7, "c@x.com", 0⟩],
         [⟨10, "Lamp", "LAM001", "d", "", "", 1, 100, 0⟩,
          ⟨20, "Desk", "DES001", "d", "", "", 1, 100, 0⟩],
         [⟨1, 10, "B1", 6, "M", 100, "S", 5, 0, 0⟩,
          ⟨2, 20, "B2", 2, "M", 100, "S", 5, 0, 0⟩],
         [], [⟨"U", "u@x.com"⟩], []⟩
      = (.failed (.insufficientStock "Desk" 2),
         ⟨[⟨7, "c@x.com", 0⟩],
          [⟨10, "Lamp", "LAM001", "d", "", "", 1, 100, 0⟩,
           ⟨20, "Desk", "DES001", "d", "", "", 1, 100, 0⟩],
          [⟨1, 10, "B1", 6, "M", 100, "S", 5, 0, 0⟩,
           ⟨2, 20, "B2", 2, "M", 100, "S", 5, 0, 0⟩],
          [], [⟨"U", "u@x.com"⟩], []⟩,
         [⟨"Lamp", "B1", 3, ["u@x.com"]⟩]) := by
  decide

/-- Claim C4: product-code generation.  Creating three products in the
active category "Footwear" (empty product collection to start) yields
`FOO001`, `FOO002`, `FOO003` in order; soft-deleting the `FOO002` product
and creating a fourth product yields `FOO004` (the sequence is one more
than the maximum suffix among ACTIVE products with the `FOO` pattern). -/
theorem productCode_sequence_footwear :
    (addProduct ⟨some "Sneaker", some "d", some 1⟩ 1
        ⟨[], [], [], [], [], [⟨1, "Footwear", "shoes", 0⟩]⟩).1
      = .success ⟨1, "Sneaker", "FOO001", "d", "", "", 1, 0, 0⟩
    ∧ ((addProduct ⟨some "Boot", some "d", some 1⟩ 3
         (addProduct ⟨some "Loafer", some "d", some 1⟩ 2
           (addProduct ⟨some "Sneaker", some "d", some 1⟩ 1
             ⟨[], [], [], [], [], [⟨1, "Footwear", "shoes", 0⟩]⟩).2).2).2).products.map
        Product.productCode
      = ["FOO001", "FOO002", "FOO003"]
    ∧ (deleteProduct 2 111
        (addProduct ⟨some "Boot", some "d", some 1⟩ 3
         (addProduct ⟨some "Loafer", some "d", some 1⟩ 2
           (addProduct ⟨some "Sneaker", some "d", some 1⟩ 1
             ⟨[], [], [], [], [], [⟨1, "Footwear", "shoes", 0⟩]⟩).2).2).2).1 = true
    ∧ ((addProduct ⟨some "Sandal", some "d", some 1⟩ 4
        (deleteProduct 2 111
          (addProduct ⟨some "Boot", some "d", some 1⟩ 3
           (addProduct ⟨some "Loafer", some "d", some 1⟩ 2
             (addProduct ⟨some "Sneaker", some "d", some 1⟩ 1
               ⟨[], [], [], [], [], [⟨1, "Footwear", "shoes", 0⟩]⟩).2).2).2).2).2).products.map
        Product.productCode
      = ["FOO001", "FOO002", "FOO003", "FOO004"] := by
  refine ⟨by decide, by decide, by decide, by decide⟩

/-- Counterexample to claim C5: for the active category named "2024" (no
letters, so the stripped-and-truncated code stem is empty), a successful
`POST /add-product` stores the product code "001", which does NOT match
`^[A-Z]\x7b1,3\x7d\d\x7b3\x7d$` — the claimed format invariant fails for a
category name with no letters. -/
theorem productCode_format_cex :
    (addProduct ⟨some "Calendar", some "d", some 1⟩ 1
        ⟨[], [], [], [], [], [⟨1, "2024", "year", 0⟩]⟩).1
      = .success ⟨1, "Calendar", "001", "d", "", "", 1, 0, 0⟩
    ∧ isCodeFormat "001" = false
    ∧ genProductCode "Footwear" [⟨1, "a", "FOO999", "d", "", "", 1, 0, 0⟩] = "FOO1000"
    ∧ isCodeFormat "FOO1000" = false := by
  refine ⟨by decide, by decide, by decide, by decide⟩

/-- Claim C5 as amended: the code GENERATED by `POST /add-product` matches
`^[A-Z]\x7b1,3\x7d\d\x7b3\x7d$` whenever the category name contains at
least one ASCII letter and the maximum active sequence number for the stem
is at most 998 (with no letters the code is bare digits; at 999 the suffix
grows to four digits); and `PUT /update-product/:id` stores the
caller-supplied `productCode` subject only to an active-uniqueness check,
with no format guarantee at all. -/
theorem productCode_format_amended :
    (∀ (name : String) (ps : List Product),
       stripNonLetters name ≠ "" →
       maxActiveSuffix (codeStem name) ps ≤ 998 →
       isCodeFormat (genProductCode name ps) = true)
    ∧ ((updateProduct 1
          ⟨some "A", some "zz9", some "d", some "s", some "c", some 5, some 1⟩
          ⟨[], [⟨1, "A", "AAA001", "d", "s", "c", 1, 5, 0⟩], [], [], [], []⟩).1
        = .success ⟨1, "A", "zz9", "d", "s", "c", 1, 5, 0⟩
       ∧ isCodeFormat "zz9" = false) := by
  exact ⟨fun name ps h1 h2 => genCode_format name ps h1 h2, by decide, by decide⟩

/-- Witness for the amended C5: the hypotheses hold for the category name
"Footwear" over the empty product collection, and the generated code
`FOO001` indeed matches the format. -/
theorem productCode_format_amended_witness :
    stripNonLetters "Footwear" ≠ ""
    ∧ maxActiveSuffix (codeStem "Footwear") [] ≤ 998
    ∧ isCodeFormat (genProductCode "Footwear" []) = true :=
  ⟨by decide, by decide,
   productCode_format_amended.1 "Footwear" [] (by decide) (by decide)⟩

/-- Claim C6 (code bug): `POST /restore-customer/:id` performs no
uniqueness-conflict check.  Restoring the soft-deleted customer 2 whose
e-mail "a@b.c" is now also carried by the ACTIVE customer 1 succeeds and
yields TWO active customers with the same e-mail, instead of failing with a
conflict error as the product and category restores do (shown alongside). -/
theorem restoreCustomer_email_collision :
    restoreCustomer 2 ⟨[⟨1, "a@b.c", 0⟩, ⟨2, "a@b.c", 7⟩], [], [], [], [], []⟩
      = (.ok, ⟨[⟨1, "a@b.c", 0⟩, ⟨2, "a@b.c", 0⟩], [], [], [], [], []⟩)
    ∧ ((restoreCustomer 2 ⟨[⟨1, "a@b.c", 0⟩, ⟨2, "a@b.c", 7⟩], [], [], [], [], []⟩).2.customers.filter
        (fun c => c.email == "a@b.c" && c.deletedAt == 0)).length = 2
    ∧ (restoreProduct 2
        ⟨[], [⟨1, "P", "AAA001", "d", "", "", 1, 0, 0⟩, ⟨2, "Q", "AAA001", "d", "", "", 1, 0, 7⟩],
         [], [], [], []⟩).1 = .conflict
    ∧ (restoreCategory 2
        ⟨[], [], [], [], [], [⟨1, "Shoes", "d", 0⟩, ⟨2, "Shoes", "d", 7⟩]⟩).1 = .conflict := by
  refine ⟨by decide, by decide, by decide, by decide⟩

/-- Claim C7: the two low-stock threshold policies.  An order-driven
deduction that leaves the quantity exactly at `lowStockAlert` (10 - 5 = 5)
dispatches no notification (strict `<`), while one unit below (10 - 6 = 4)
dispatches one; a manual `update-stock` that leaves the quantity exactly at
`lowStockAlert` dispatches a notification (`<=`), while `lowStockAlert + 1`
does not.  In both dispatching cases the notification carries the product
name, the batch number and the post-operation quantity, and is addressed to
every registered user's e-mail. -/
theorem lowStock_threshold_policies :
    (placeOrder ⟨some 7, some [⟨1, 5⟩], some 50⟩
        ⟨[⟨7, "c@x.com", 0⟩], [⟨10, "Gadget", "GAD001", "d", "", "", 1, 100, 0⟩],
         [⟨1, 10, "B1", 10, "M", 100, "S", 5, 0, 0⟩], [],
         [⟨"U", "u@x.com"⟩, ⟨"V", "v@y.com"⟩], []⟩).2.2 = []
    ∧ (placeOrder ⟨some 7, some [⟨1, 5⟩], some 50⟩
        ⟨[⟨7, "c@x.com", 0⟩], [⟨10, "Gadget", "GAD001", "d", "", "", 1, 100, 0⟩],
         [⟨1, 10, "B1", 10, "M", 100, "S", 5, 0, 0⟩], [],
         [⟨"U", "u@x.com"⟩, ⟨"V", "v@y.com"⟩], []⟩).1
      = .success ⟨7, [⟨1, 5⟩], 50, "pending", 0⟩
    ∧ (placeOrder ⟨some 7, some [⟨1, 6⟩], some 50⟩
        ⟨[⟨7, "c@x.com", 0⟩], [⟨10, "Gadget", "GAD001", "d", "", "", 1, 100, 0⟩],
         [⟨1, 10, "B1", 10, "M", 100, "S", 5, 0, 0⟩], [],
         [⟨"U", "u@x.com"⟩, ⟨"V", "v@y.com"⟩], []⟩).2.2
      = [⟨"Gadget", "B1", 4, ["u@x.com", "v@y.com"]⟩]
    ∧ (updateStock 1 ⟨some 5, none, none, none, none⟩ 99
        ⟨[], [⟨10, "Gadget", "GAD001", "d", "", "", 1, 100, 0⟩],
         [⟨1, 10, "B1", 10, "M", 100, "S", 5, 0, 0⟩], [],
         [⟨"U", "u@x.com"⟩, ⟨"V", "v@y.com"⟩], []⟩).2.2
      = [⟨"Gadget", "B1", 5, ["u@x.com", "v@y.com"]⟩]
    ∧ (updateStock 1 ⟨some 6, none, none, none, none⟩ 99
        ⟨[], [⟨10, "Gadget", "GAD001", "d", "", "", 1, 100, 0⟩],
         [⟨1, 10, "B1", 10, "M", 100, "S", 5, 0, 0⟩], [],
         [⟨"U", "u@x.com"⟩, ⟨"V", "v@y.com"⟩], []⟩).2.2 = [] := by
  refine ⟨by decide, by decide, by decide, by decide, by decide⟩

/-- Counterexample to claim C8: `totalAmount` is not optional and a negative
value is not replaced by the derived sum.  Omitting `totalAmount` is
rejected by the required-fields check ("All fields are required"), and a
supplied `-5` is stored as the order's total even though the derived sum of
`price * quantity` would be `10 * 2 = 20`. -/
theorem totalAmount_policy_cex :
    (placeOrder ⟨some 1, some [⟨1, 2⟩], none⟩
        ⟨[⟨1, "e@x.com", 0⟩], [⟨10, "Gadget", "GAD001", "d", "", "", 1, 10, 0⟩],
         [⟨1, 10, "B1", 100, "M", 100, "S", 0, 0, 0⟩], [], [], []⟩).1
      = .failed .missingFields
    ∧ (placeOrder ⟨some 1, some [⟨1, 2⟩], some (-5)⟩
        ⟨[⟨1, "e@x.com", 0⟩], [⟨10, "Gadget", "GAD001", "d", "", "", 1, 10, 0⟩],
         [⟨1, 10, "B1", 100, "M", 100, "S", 0, 0, 0⟩], [], [], []⟩).1
      = .success ⟨1, [⟨1, 2⟩], -5, "pending", 0⟩
    ∧ ((-5 : Int) ≠ 10 * 2) := by
  refine ⟨by decide, by decide, by decide⟩

/-- Claim C8 as amended: `totalAmount` must be present — omitting it fails
the required-fields validation; when present, any nonzero numeric value
(positive or negative) is used as the order's total unchanged, and only a
zero (or non-numeric) value triggers the derived fallback sum of
`price * quantity` over the line items. -/
theorem totalAmount_policy_amended :
    (∀ t : Int, t ≠ 0 →
       (placeOrder ⟨some 1, some [⟨1, 2⟩], some t⟩
          ⟨[⟨1, "e@x.com", 0⟩], [⟨10, "Gadget", "GAD001", "d", "", "", 1, 10, 0⟩],
           [⟨1, 10, "B1", 100, "M", 100, "S", 0, 0, 0⟩], [], [], []⟩).1
         = .success ⟨1, [⟨1, 2⟩], t, "pending", 0⟩)
    ∧ (placeOrder ⟨some 1, some [⟨1, 2⟩], some 0⟩
        ⟨[⟨1, "e@x.com", 0⟩], [⟨10, "Gadget", "GAD001", "d", "", "", 1, 10, 0⟩],
         [⟨1, 10, "B1", 100, "M", 100, "S", 0, 0, 0⟩], [], [], []⟩).1
      = .success ⟨1, [⟨1, 2⟩], 20, "pending", 0⟩
    ∧ (placeOrder ⟨some 1, some [⟨1, 2⟩], none⟩
        ⟨[⟨1, "e@x.com", 0⟩], [⟨10, "Gadget", "GAD001", "d", "", "", 1, 10, 0⟩],
         [⟨1, 10, "B1", 100, "M", 100, "S", 0, 0, 0⟩], [], [], []⟩).1
      = .failed .missingFields := by
  refine ⟨?_, by decide, by decide⟩
  intro t ht
  simp only [placeOrder, processItems]
  norm_num [ht]

/-- Witness for the amended C8: instantiating the quantified part at the
nonzero total `-5` — the order is accepted with total `-5`. -/
theorem totalAmount_policy_amended_witness :
    (-5 : Int) ≠ 0
    ∧ (placeOrder ⟨some 1, some [⟨1, 2⟩], some (-5)⟩
        ⟨[⟨1, "e@x.com", 0⟩], [⟨10, "Gadget", "GAD001", "d", "", "", 1, 10, 0⟩],
         [⟨1, 10, "B1", 100, "M", 100, "S", 0, 0, 0⟩], [], [], []⟩).1
      = .success ⟨1, [⟨1, 2⟩], -5, "pending", 0⟩ :=
  ⟨by decide, totalAmount_policy_amended.1 (-5) (by decide)⟩

/-- Counterexample to claim C9: `placeOrder` does NOT treat soft-deleted
entities as absent.  With a soft-deleted customer (marker 99) and a
soft-deleted stock batch (marker 77), the order succeeds and deducts from
the deleted batch instead of failing with the customer-not-found or
stock-not-found error. -/
theorem placeOrder_soft_deleted_cex :
    placeOrder ⟨some 1, some [⟨1, 2⟩], some 100⟩
        ⟨[⟨1, "e@x.com", 99⟩], [⟨10, "Gadget", "GAD001", "d", "", "", 1, 100, 0⟩],
         [⟨1, 10, "B1", 10, "M", 100, "S", 0, 0, 77⟩], [], [], []⟩
      = (.success ⟨1, [⟨1, 2⟩], 100, "pending", 0⟩,
         ⟨[⟨1, "e@x.com", 99⟩], [⟨10, "Gadget", "GAD001", "d", "", "", 1, 100, 0⟩],
          [⟨1, 10, "B1", 8, "M", 100, "S", 0, 0, 77⟩],
          [⟨1, [⟨1, 2⟩], 100, "pending", 0⟩], [], []⟩,
         []) := by
  decide

/-- Claim C9 as amended: the `findById` lookups of `placeOrder` ignore the
delete marker entirely — for EVERY marker value on the customer and on the
batch (deleted or active alike), the lookup succeeds, the order proceeds,
the deduction is applied to the batch and the order is persisted. -/
theorem placeOrder_ignores_delete_marker (dC dS : Nat) :
    placeOrder ⟨some 1, some [⟨1, 2⟩], some 100⟩
        ⟨[⟨1, "e@x.com", dC⟩], [⟨10, "Gadget", "GAD001", "d", "", "", 1, 100, 0⟩],
         [⟨1, 10, "B1", 10, "M", 100, "S", 0, 0, dS⟩], [], [], []⟩
      = (.success ⟨1, [⟨1, 2⟩], 100, "pending", 0⟩,
         ⟨[⟨1, "e@x.com", dC⟩], [⟨10, "Gadget", "GAD001", "d", "", "", 1, 100, 0⟩],
          [⟨1, 10, "B1", 8, "M", 100, "S", 0, 0, dS⟩],
          [⟨1, [⟨1, 2⟩], 100, "pending", 0⟩], [], []⟩,
         []) := by
  rfl

/-- Claim C10: `placeOrder` does not validate that line-item quantities are
positive.  For every non-negative available quantity `q` and every
requested quantity `r ≤ 0`, the availability check `q < r` passes, the
deduction stores `q - r` (so a strictly negative request INCREASES the
stored quantity), and the order is persisted as successful. -/
theorem placeOrder_negative_item_quantity (q r : Int) (hq : 0 ≤ q) (hr : r ≤ 0) :
    placeOrder ⟨some 1, some [⟨1, r⟩], some 100⟩
        ⟨[⟨1, "e@x.com", 0⟩], [⟨10, "Gadget", "GAD001", "d", "", "", 1, 100, 0⟩],
         [⟨1, 10, "B1", q, "M", 100, "S", 0, 0, 0⟩], [], [], []⟩
      = (.success ⟨1, [⟨1, r⟩], 100, "pending", 0⟩,
         ⟨[⟨1, "e@x.com", 0⟩], [⟨10, "Gadget", "GAD001", "d", "", "", 1, 100, 0⟩],
          [⟨1, 10, "B1", q - r, "M", 100, "S", 0, 0, 0⟩],
          [⟨1, [⟨1, r⟩], 100, "pending", 0⟩], [], []⟩,
         [])
    ∧ q ≤ q - r := by
  have h1 : ¬ (q < r) := by omega
  have h2 : orderLowStockCond (q - r) 0 = false := by
    simp only [orderLowStockCond, decide_eq_false_iff_not]
    omega
  constructor
  · simp only [placeOrder, processItems]
    simp [h1, h2]
  · omega

/-- Witness for C10: at available quantity 10 and requested quantity -3 the
order succeeds and the stored quantity rises to 13. -/
theorem placeOrder_negative_item_quantity_witness :
    (0 : Int) ≤ 10 ∧ (-3 : Int) ≤ 0
    ∧ (placeOrder ⟨some 1, some [⟨1, -3⟩], some 100⟩
          ⟨[⟨1, "e@x.com", 0⟩], [⟨10, "Gadget", "GAD001", "d", "", "", 1, 100, 0⟩],
           [⟨1, 10, "B1", 10, "M", 100, "S", 0, 0, 0⟩], [], [], []⟩
        = (.success ⟨1, [⟨1, -3⟩], 100, "pending", 0⟩,
           ⟨[⟨1, "e@x.com", 0⟩], [⟨10, "Gadget", "GAD001", "d", "", "", 1, 100, 0⟩],
            [⟨1, 10, "B1", 13, "M", 100, "S", 0, 0, 0⟩],
            [⟨1, [⟨1, -3⟩], 100, "pending", 0⟩], [], []⟩,
           [])
       ∧ (10 : Int) ≤ 13) :=
  ⟨by decide, by decide,
   placeOrder_negative_item_quantity 10 (-3) (by decide) (by decide)⟩
